import Mathlib

/-!
Verification of the `any-3d-model-to-glb` conversion pipeline.

The development shallowly embeds the JavaScript sources:
* `validatePath`, `validateOptionsObject`, `validateOptionsProps` from
  `src/validate-arg.js` (the revision with the full path rules, which is the
  one exercised by `src/validate-arg.test.js`);
* the `any3dModelToGlb` entry point from `any-3d-model-to-glb.js`
  (default `noticeLevel: 3`, verbosity-gated notices).

JavaScript strings are embedded as Lean `String` (lengths count characters),
numbers that reach the validated paths as `Int`, thrown exceptions as
`Except.error` carrying the exception message, and the three injected or
external asynchronous collaborators (`readFile`, `convertModel`, `writeFile`)
as an oracle record of pure functions returning `Except`.  The embedding of
the pipeline additionally records the sequence of collaborator invocations,
so that claims about calls never being made are statable.
-/

namespace AnyToGlb

/-- A JavaScript value passed as a path argument.  `typeofJs` mirrors the
`typeof` operator on the embedded constructors. -/
inductive JsVal where
  | str (s : String)
  | num (n : Int)
  | boolean (b : Bool)
  | undefined
  | nullJs
deriving DecidableEq, Repr

/-- The `typeof` operator restricted to the embedded path-argument values
(`typeof null` is the string `object` in JavaScript). -/
def typeofJs : JsVal → String
  | JsVal.str _ => "string"
  | JsVal.num _ => "number"
  | JsVal.boolean _ => "boolean"
  | JsVal.undefined => "undefined"
  | JsVal.nullJs => "object"

/-- A JavaScript value stored in a field of the options record. -/
inductive OptVal where
  | num (n : Int)
  | str (s : String)
  | boolean (b : Bool)
  | undef
deriving DecidableEq, Repr

/-- The `typeof` operator on option-field values. -/
def typeofOptVal : OptVal → String
  | OptVal.num _ => "number"
  | OptVal.str _ => "string"
  | OptVal.boolean _ => "boolean"
  | OptVal.undef => "undefined"

/-- The `options` argument of `any3dModelToGlb`: a plain keyed record (fields
in insertion order), `null`, an array, or a primitive of the given `typeof`. -/
inductive JsOptions where
  | record (fields : List (String × OptVal))
  | nullOpt
  | arrOpt
  | primOpt (typeName : String)
deriving DecidableEq, Repr

/-- The own enumerable fields of the options argument (only meaningful once
`validateOptionsObject` has accepted it, i.e. for `record`). -/
def optionFields : JsOptions → List (String × OptVal)
  | JsOptions.record fields => fields
  | _ => []

/-- Looks a key up in a field list, as JavaScript property access does. -/
def lookupField (key : String) (fields : List (String × OptVal)) : Option OptVal :=
  (fields.find? (fun p => p.1 == key)).map (fun p => p.2)

/-- One processing notice, from `any-3d-model-to-glb.js`: error notices carry
a `detail` field, informational ones do not. -/
structure Notice where
  code : Nat
  message : String
  detail : Option String
deriving DecidableEq, Repr

/-- The severity tier of a notice: the first digit of its 5-digit code. -/
def noticeTier (n : Notice) : Nat := n.code / 10000

/-- The value resolved by a run of `any3dModelToGlb`. -/
structure PipelineResult where
  didSucceed : Bool
  notices : List Notice
deriving DecidableEq, Repr

/-- One invocation of an injected or external collaborator. -/
inductive CallEvent where
  | readCall (path : String)
  | convertCall (filename : String) (modelBytes : List Nat)
  | writeCall (path : String) (data : List Nat)
deriving DecidableEq, Repr

/-- A pipeline run together with the trace of collaborator invocations. -/
structure RunOutcome where
  result : PipelineResult
  calls : List CallEvent
deriving DecidableEq, Repr

/-- The behaviour of the three collaborators for one run: `readFile` and
`writeFile` are the injectable functions, `convertModel` stands for the
opaque conversion gateway; `Except.error` embeds a thrown exception and
carries its `message`. -/
structure Collab where
  readFile : String → Except String String
  convertModel : String → List Nat → Except String (List Nat)
  writeFile : String → List Nat → Except String Unit

/-- `VALID_INPUT_EXTENSIONS` from `src/constants.js`. -/
def VALID_INPUT_EXTENSIONS : List String := ["dae", "fbx", "glb", "gltf", "obj", "stl"]

/-- One character of the regex class `[<>:"|?*\x00-\x1F]` used by
`validatePath`. -/
def isInvalidPathChar (c : Char) : Bool :=
  c.toNat ≤ 31 || c == '<' || c == '>' || c == ':' || c == '\"' || c == '|' || c == '?' || c == '*'

/-- One character of the regex class `[a-z0-9]` used in the extension
pattern. -/
def isExtChar (c : Char) : Bool :=
  (97 ≤ c.toNat && c.toNat ≤ 122) || (48 ≤ c.toNat && c.toNat ≤ 57)

/-- The leftmost match of the anchored regex `\.([a-z0-9]{1,9})$`: scans for
the first position holding a dot whose entire remaining suffix is 1 to 9
characters of `[a-z0-9]`, and captures that suffix. -/
def extMatchAux : List Char → Option (List Char)
  | [] => none
  | c :: cs =>
      if c = '.' ∧ 1 ≤ cs.length ∧ cs.length ≤ 9 ∧ cs.all isExtChar = true then some cs
      else extMatchAux cs

/-- `path.match(/\.([a-z0-9]{1,9})$/)` reduced to its captured group. -/
def extMatch (s : String) : Option String :=
  (extMatchAux s.data).map (fun l => String.mk l)

/-- `validatePath` from `src/validate-arg.js` (full revision): each `throw`
becomes `Except.error` carrying the exception message. -/
def validatePath (fnName argName : String) (path : JsVal) : Except String Unit :=
  let xpx := s!"{fnName}(): Invalid"
  match path with
  | JsVal.str s =>
      let len := s.length
      if len = 0 then
        Except.error s!"{xpx} {argName} argument is an empty string, should be a valid file path"
      else if len > 1000 then
        Except.error s!"{xpx} {argName} argument length {len} exceeds maximum of 1000 characters"
      else if s.data.any isInvalidPathChar then
        Except.error s!"{xpx} {argName} argument \x27{s}\x27 contains invalid characters for file paths"
      else
        match extMatch s with
        | none => Except.error s!"{xpx} {argName} argument has no valid file extension"
        | some ext =>
            if argName = "outputPath" ∧ ext ≠ "glb" then
              Except.error s!"{xpx} {argName} argument extension \x27.{ext}\x27 is not supported, should be \x27.glb\x27"
            else if argName = "inputPath" ∧ ¬ (VALID_INPUT_EXTENSIONS.contains ext = true) then
              Except.error s!"{xpx} {argName} argument extension \x27.{ext}\x27 is not a supported 3D model format"
            else
              Except.ok ()
  | other =>
      let t := typeofJs other
      Except.error s!"{xpx} {argName} argument type \x27{t}\x27, should be \x27string\x27"

/-- `validateOptionsObject` from `src/validate-arg.js`: rejects `null`,
arrays, and values whose `typeof` is not `object`. -/
def validateOptionsObject (fnName : String) (options : JsOptions) : Except String Unit :=
  let xpx := s!"{fnName}(): Invalid"
  match options with
  | JsOptions.nullOpt =>
      Except.error s!"{xpx} options argument is null, should be a plain object"
  | JsOptions.arrOpt =>
      Except.error s!"{xpx} options argument is an array, should be a plain object"
  | JsOptions.primOpt t =>
      Except.error s!"{xpx} options argument type \x27{t}\x27, should be \x27object\x27"
  | JsOptions.record _ => Except.ok ()

/-- The spread `{ noticeLevel: 3, ...options }` from `any-3d-model-to-glb.js`:
the default key comes first and is overridden by any own field of `options`,
including a field explicitly set to `undefined`. -/
def mergeDefaults (fields : List (String × OptVal)) : List (String × OptVal) :=
  let nl := (lookupField "noticeLevel" fields).getD (OptVal.num 3)
  ("noticeLevel", nl) :: fields.filter (fun p => p.1 != "noticeLevel")

/-- The recognised option names from `validateOptionsProps`. -/
def validOptionNames : List String := ["noticeLevel"]

/-- The `for (const propName of Object.keys(...))` loop of
`validateOptionsProps`: the first unrecognised key throws. -/
def checkOptionKeys (xpx : String) : List (String × OptVal) → Except String Unit
  | [] => Except.ok ()
  | (k, _) :: rest =>
      if validOptionNames.contains k then checkOptionKeys xpx rest
      else Except.error s!"{xpx} options.{k} is not a recognised option name"

/-- `validateOptionsProps` from `src/validate-arg.js`: every key must be
recognised, then `noticeLevel` must be a number in the set `{1, 2, 3, 4}`. -/
def validateOptionsProps (fnName : String) (defaultedOptions : List (String × OptVal)) :
    Except String Unit :=
  let xpx := s!"{fnName}():"
  match checkOptionKeys xpx defaultedOptions with
  | Except.error e => Except.error e
  | Except.ok _ =>
      match (lookupField "noticeLevel" defaultedOptions).getD OptVal.undef with
      | OptVal.num n =>
          if n = 1 ∨ n = 2 ∨ n = 3 ∨ n = 4 then Except.ok ()
          else Except.error s!"{xpx} Invalid options.noticeLevel should be 1, 2, 3, or 4"
      | other =>
          let t := typeofOptVal other
          Except.error s!"{xpx} Invalid options.noticeLevel type \x27{t}\x27, should be \x27number\x27"

/-- The options-resolution slice of `any3dModelToGlb` (lines 44-55 of
`any-3d-model-to-glb.js`): object check, defaulting merge, property check;
a thrown `RangeError` propagates as `Except.error`. -/
def resolveOptions (fnName : String) (options : JsOptions) :
    Except String (List (String × OptVal)) :=
  match validateOptionsObject fnName options with
  | Except.error e => Except.error e
  | Except.ok _ =>
      let defaultedOptions := mergeDefaults (optionFields options)
      match validateOptionsProps fnName defaultedOptions with
      | Except.error e => Except.error e
      | Except.ok _ => Except.ok defaultedOptions

/-- A path separator, as in the regex `[/\\]`. -/
def isSep (c : Char) : Bool := c == '/' || c == '\\'

/-- JavaScript `string.split` on a single-character separator class: splits
at every separator, keeping empty pieces, and yields `[""]` on the empty
string. -/
def splitChars (p : Char → Bool) : List Char → List (List Char)
  | [] => [[]]
  | c :: cs =>
      match splitChars p cs with
      | [] => [[c]]
      | r :: rs => if p c then [] :: r :: rs else (c :: r) :: rs

/-- `inputPath.split(/[/\\]/).pop() || inputPath` from
`any-3d-model-to-glb.js` line 76. -/
def filenameFromPath (inputPath : String) : String :=
  let parts := splitChars isSep inputPath.data
  let lastPart := parts.getLastD []
  if lastPart.isEmpty then inputPath else String.mk lastPart

/-- `new Uint8Array(Buffer.from(inputData))`: the UTF-8 bytes of the string
read from the input file. -/
def bufferFrom (s : String) : List Nat :=
  s.toUTF8.toList.map (fun b => b.toNat)

/-- The read-convert-write body of `any3dModelToGlb` (lines 57-113 of
`any-3d-model-to-glb.js`), after argument validation has succeeded and
`noticeLevel` has been resolved.  Returns the `PipelineResult` and the trace
of collaborator invocations, in order. -/
def runPipeline (noticeLevel : Int) (inputPath outputPath : String) (c : Collab) : RunOutcome :=
  let notices0 : List Notice :=
    if noticeLevel ≤ 1 then [⟨14481, s!"Reading input file {inputPath}", none⟩] else []
  match c.readFile inputPath with
  | Except.error msg =>
      ⟨⟨false, notices0 ++ [⟨48172, s!"Error reading file at {inputPath}", some msg⟩]⟩,
       [CallEvent.readCall inputPath]⟩
  | Except.ok inputData =>
      let filename := filenameFromPath inputPath
      let modelBytes := bufferFrom inputData
      let notices1 := notices0 ++
        (if noticeLevel ≤ 1 then [⟨15118, s!"Converting {filename}", none⟩] else [])
      match c.convertModel filename modelBytes with
      | Except.error msg =>
          ⟨⟨false, notices1 ++
              [⟨49480, s!"Error converting model {inputPath} to GLB format", some msg⟩]⟩,
           [CallEvent.readCall inputPath, CallEvent.convertCall filename modelBytes]⟩
      | Except.ok outputData =>
          let notices2 := notices1 ++
            (if noticeLevel ≤ 1 then [⟨19158, s!"Writing output file {outputPath}", none⟩] else [])
          let n := outputData.length
          match c.writeFile outputPath outputData with
          | Except.error msg =>
              ⟨⟨false, notices2 ++ [⟨41510, s!"Error writing {n} bytes to {outputPath}", some msg⟩]⟩,
               [CallEvent.readCall inputPath, CallEvent.convertCall filename modelBytes,
                CallEvent.writeCall outputPath outputData]⟩
          | Except.ok _ =>
              let notices3 := notices2 ++
                (if noticeLevel ≤ 2 then [⟨26152, s!"Wrote {n} bytes", none⟩] else [])
              ⟨⟨true, notices3⟩,
               [CallEvent.readCall inputPath, CallEvent.convertCall filename modelBytes,
                CallEvent.writeCall outputPath outputData]⟩

/-- The `noticeLevel` destructured from the defaulted options record
(`const { noticeLevel } = defaultedOptions`); after `validateOptionsProps`
it is always a number, so the fallback is never reached. -/
def resolvedNoticeLevel (defaultedOptions : List (String × OptVal)) : Int :=
  match (lookupField "noticeLevel" defaultedOptions).getD OptVal.undef with
  | OptVal.num n => n
  | _ => 3

/-- `any3dModelToGlb` from `any-3d-model-to-glb.js`: validates both paths and
the options argument, resolves the options against the default
`noticeLevel: 3`, then runs the pipeline body.  A thrown argument error is
`Except.error`; a completed run is `Except.ok`. -/
def any3dModelToGlb (inputPath outputPath : JsVal) (options : JsOptions) (c : Collab) :
    Except String RunOutcome :=
  let fn := "any3dModelToGlb"
  match validatePath fn "inputPath" inputPath with
  | Except.error e => Except.error e
  | Except.ok _ =>
      match validatePath fn "outputPath" outputPath with
      | Except.error e => Except.error e
      | Except.ok _ =>
          match resolveOptions fn options with
          | Except.error e => Except.error e
          | Except.ok defaultedOptions =>
              match inputPath, outputPath with
              | JsVal.str ip, JsVal.str op =>
                  Except.ok (runPipeline (resolvedNoticeLevel defaultedOptions) ip op c)
              | _, _ => Except.error "unreachable: validatePath accepts only strings"

/-- Whether an `Except` computation completed without a thrown exception. -/
def exceptIsOk {ε α : Type} : Except ε α → Bool
  | Except.ok _ => true
  | Except.error _ => false

/-- Stated from the words of the claim, for comparison with
`filenameFromPath`:
the substring of the path after its last `/` or `\` separator (the whole
path when it holds no separator). -/
def suffixAfterLastSep (p : String) : String :=
  String.mk ((p.data.reverse.takeWhile (fun c => !(isSep c))).reverse)

/-- A collaborator record whose three stages all succeed, for concrete runs:
reading yields the four bytes of `data`, converting yields three bytes. -/
def okCollab : Collab :=
  ⟨fun _ => Except.ok "data", fun _ _ => Except.ok [1, 2, 3], fun _ _ => Except.ok ()⟩

/-- A collaborator record whose `readFile` throws, for concrete runs. -/
def readErrCollab : Collab :=
  ⟨fun _ => Except.error "ENOENT", fun _ _ => Except.ok [1, 2, 3], fun _ _ => Except.ok ()⟩

/-! ## Helper lemmas -/

/-- `checkOptionKeys` succeeds exactly when every key is recognised. -/
theorem checkOptionKeys_ok_iff (xpx : String) (l : List (String × OptVal)) :
    exceptIsOk (checkOptionKeys xpx l) = true ↔ ∀ p ∈ l, p.1 ∈ validOptionNames := by
  induction l with
  | nil => simp [checkOptionKeys, exceptIsOk]
  | cons p rest ih =>
      obtain ⟨k, v⟩ := p
      by_cases hk : k ∈ validOptionNames
      · simp [checkOptionKeys, hk, ih]
      · simp [checkOptionKeys, hk, exceptIsOk]

/-- In every branch of the pipeline body, `didSucceed` is `true` exactly when
no error-tier notice is in the list. -/
theorem runPipeline_didSucceed_iff (nl : Int) (ip op : String) (c : Collab) :
    (runPipeline nl ip op c).result.didSucceed = true ↔
      ∀ n ∈ (runPipeline nl ip op c).result.notices, noticeTier n ≠ 4 := by
  unfold runPipeline
  rcases hr : c.readFile ip with msg | inputData
  · simp only [hr]
    simp [noticeTier]
    exact ⟨⟨48172, s!"Error reading file at {ip}", some msg⟩, Or.inr rfl, by norm_num⟩
  · rcases hc : c.convertModel (filenameFromPath ip) (bufferFrom inputData) with msg | outputData
    · simp only [hr, hc]
      simp [noticeTier]
      exact ⟨⟨49480, s!"Error converting model {ip} to GLB format", some msg⟩,
        Or.inr (Or.inr rfl), by norm_num⟩
    · rcases hw : c.writeFile op outputData with msg | u
      · simp only [hr, hc, hw]
        simp [noticeTier]
        refine ⟨⟨41510, _, some msg⟩, Or.inr (Or.inr (Or.inr rfl)), by norm_num⟩
      · simp only [hr, hc, hw]
        simp [noticeTier]
        intro n hn
        rcases hn with ⟨-, h⟩ | ⟨-, h⟩ | ⟨-, h⟩ | ⟨-, h⟩ <;> subst h <;> norm_num

/-- A completed run of `any3dModelToGlb` is a run of the pipeline body on the
two path strings, at the resolved notice level. -/
theorem any3dModelToGlb_ok_elim (inputPath outputPath : JsVal) (options : JsOptions)
    (c : Collab) (outcome : RunOutcome)
    (h : any3dModelToGlb inputPath outputPath options c = Except.ok outcome) :
    ∃ nl ip op, inputPath = JsVal.str ip ∧ outputPath = JsVal.str op ∧
      outcome = runPipeline nl ip op c := by
  rcases hv1 : validatePath "any3dModelToGlb" "inputPath" inputPath with e | u1
  · simp [any3dModelToGlb, hv1] at h
  · rcases hv2 : validatePath "any3dModelToGlb" "outputPath" outputPath with e | u2
    · simp [any3dModelToGlb, hv1, hv2] at h
    · rcases hv3 : resolveOptions "any3dModelToGlb" options with e | d
      · simp [any3dModelToGlb, hv1, hv2, hv3] at h
      · simp only [any3dModelToGlb, hv1, hv2, hv3] at h
        cases inputPath <;> cases outputPath <;> simp_all
        exact ⟨resolvedNoticeLevel d, h.symm⟩

/-- The tier of a notice literal is its code divided by 10000. -/
theorem noticeTier_mk (code : Nat) (m : String) (d : Option String) :
    noticeTier ⟨code, m, d⟩ = code / 10000 := rfl

/-- Membership in a conditionally-appended singleton notice. -/
theorem mem_gateList {α : Type} (P : Prop) [Decidable P] (a x : α) :
    x ∈ (if P then [a] else ([] : List α)) ↔ (P ∧ x = a) := by
  by_cases h : P <;> simp [h]

/-- In every branch of the pipeline body, a notice is recorded at level `nl`
exactly when it is recorded at the most verbose level 1 and its severity tier
is at least `nl`. -/
theorem runPipeline_mem_iff (nl : Int) (ip op : String) (c : Collab) (h4 : nl ≤ 4) (n : Notice) :
    n ∈ (runPipeline nl ip op c).result.notices ↔
      (n ∈ (runPipeline 1 ip op c).result.notices ∧ nl ≤ (noticeTier n : Int)) := by
  rcases hr : c.readFile ip with msg | s
  · have key : ∀ m : Int, runPipeline m ip op c =
        ⟨⟨false, (if m ≤ 1 then [⟨14481, s!"Reading input file {ip}", none⟩] else []) ++
            [⟨48172, s!"Error reading file at {ip}", some msg⟩]⟩,
         [CallEvent.readCall ip]⟩ := by
      intro m; unfold runPipeline; simp only [hr]
    rw [key nl, key 1]
    simp only [List.mem_append, mem_gateList, List.mem_singleton]
    constructor
    · rintro (⟨hg, rfl⟩ | rfl)
      · exact ⟨Or.inl ⟨by norm_num, rfl⟩, by rw [noticeTier_mk]; norm_num; omega⟩
      · exact ⟨Or.inr rfl, by rw [noticeTier_mk]; norm_num; omega⟩
    · rintro ⟨⟨hg, rfl⟩ | rfl, ht⟩
      · rw [noticeTier_mk] at ht; norm_num at ht
        exact Or.inl ⟨ht, rfl⟩
      · exact Or.inr rfl
  · obtain ⟨fn, hfn⟩ : ∃ x, x = filenameFromPath ip := ⟨_, rfl⟩
    rcases hc : c.convertModel (filenameFromPath ip) (bufferFrom s) with msg | out
    · have key : ∀ m : Int, runPipeline m ip op c =
          ⟨⟨false, ((if m ≤ 1 then [⟨14481, s!"Reading input file {ip}", none⟩] else []) ++
              (if m ≤ 1 then [⟨15118, s!"Converting {fn}", none⟩] else [])) ++
              [⟨49480, s!"Error converting model {ip} to GLB format", some msg⟩]⟩,
           [CallEvent.readCall ip, CallEvent.convertCall fn (bufferFrom s)]⟩ := by
        subst hfn; intro m; unfold runPipeline; simp only [hr, hc]
      rw [key nl, key 1]
      simp only [List.mem_append, mem_gateList, List.mem_singleton]
      constructor
      · rintro ((⟨hg, rfl⟩ | ⟨hg, rfl⟩) | rfl)
        · exact ⟨Or.inl (Or.inl ⟨by norm_num, rfl⟩), by rw [noticeTier_mk]; norm_num; omega⟩
        · exact ⟨Or.inl (Or.inr ⟨by norm_num, rfl⟩), by rw [noticeTier_mk]; norm_num; omega⟩
        · exact ⟨Or.inr rfl, by rw [noticeTier_mk]; norm_num; omega⟩
      · rintro ⟨(⟨hg, rfl⟩ | ⟨hg, rfl⟩) | rfl, ht⟩
        · rw [noticeTier_mk] at ht; norm_num at ht
          exact Or.inl (Or.inl ⟨ht, rfl⟩)
        · rw [noticeTier_mk] at ht; norm_num at ht
          exact Or.inl (Or.inr ⟨ht, rfl⟩)
        · exact Or.inr rfl
    · obtain ⟨k, hk⟩ : ∃ x, x = out.length := ⟨_, rfl⟩
      rcases hw : c.writeFile op out with msg | u
      · have key : ∀ m : Int, runPipeline m ip op c =
            ⟨⟨false, (((if m ≤ 1 then [⟨14481, s!"Reading input file {ip}", none⟩] else []) ++
                (if m ≤ 1 then [⟨15118, s!"Converting {fn}", none⟩] else [])) ++
                (if m ≤ 1 then [⟨19158, s!"Writing output file {op}", none⟩] else [])) ++
                [⟨41510, s!"Error writing {k} bytes to {op}", some msg⟩]⟩,
             [CallEvent.readCall ip, CallEvent.convertCall fn (bufferFrom s),
              CallEvent.writeCall op out]⟩ := by
          subst hfn; subst hk; intro m; unfold runPipeline; simp only [hr, hc, hw]
        rw [key nl, key 1]
        simp only [List.mem_append, mem_gateList, List.mem_singleton]
        constructor
        · rintro (((⟨hg, rfl⟩ | ⟨hg, rfl⟩) | ⟨hg, rfl⟩) | rfl)
          · exact ⟨Or.inl (Or.inl (Or.inl ⟨by norm_num, rfl⟩)),
              by rw [noticeTier_mk]; norm_num; omega⟩
          · exact ⟨Or.inl (Or.inl (Or.inr ⟨by norm_num, rfl⟩)),
              by rw [noticeTier_mk]; norm_num; omega⟩
          · exact ⟨Or.inl (Or.inr ⟨by norm_num, rfl⟩), by rw [noticeTier_mk]; norm_num; omega⟩
          · exact ⟨Or.inr rfl, by rw [noticeTier_mk]; norm_num; omega⟩
        · rintro ⟨((⟨hg, rfl⟩ | ⟨hg, rfl⟩) | ⟨hg, rfl⟩) | rfl, ht⟩
          · rw [noticeTier_mk] at ht; norm_num at ht
            exact Or.inl (Or.inl (Or.inl ⟨ht, rfl⟩))
          · rw [noticeTier_mk] at ht; norm_num at ht
            exact Or.inl (Or.inl (Or.inr ⟨ht, rfl⟩))
          · rw [noticeTier_mk] at ht; norm_num at ht
            exact Or.inl (Or.inr ⟨ht, rfl⟩)
          · exact Or.inr rfl
      · have key : ∀ m : Int, runPipeline m ip op c =
            ⟨⟨true, (((if m ≤ 1 then [⟨14481, s!"Reading input file {ip}", none⟩] else []) ++
                (if m ≤ 1 then [⟨15118, s!"Converting {fn}", none⟩] else [])) ++
                (if m ≤ 1 then [⟨19158, s!"Writing output file {op}", none⟩] else [])) ++
                (if m ≤ 2 then [⟨26152, s!"Wrote {k} bytes", none⟩] else [])⟩,
             [CallEvent.readCall ip, CallEvent.convertCall fn (bufferFrom s),
              CallEvent.writeCall op out]⟩ := by
          subst hfn; subst hk; intro m; unfold runPipeline; simp only [hr, hc, hw]
        rw [key nl, key 1]
        simp only [List.mem_append, mem_gateList, List.mem_singleton]
        constructor
        · rintro (((⟨hg, rfl⟩ | ⟨hg, rfl⟩) | ⟨hg, rfl⟩) | ⟨hg, rfl⟩)
          · exact ⟨Or.inl (Or.inl (Or.inl ⟨by norm_num, rfl⟩)),
              by rw [noticeTier_mk]; norm_num; omega⟩
          · exact ⟨Or.inl (Or.inl (Or.inr ⟨by norm_num, rfl⟩)),
              by rw [noticeTier_mk]; norm_num; omega⟩
          · exact ⟨Or.inl (Or.inr ⟨by norm_num, rfl⟩), by rw [noticeTier_mk]; norm_num; omega⟩
          · exact ⟨Or.inr ⟨by norm_num, rfl⟩, by rw [noticeTier_mk]; norm_num; omega⟩
        · rintro ⟨((⟨hg, rfl⟩ | ⟨hg, rfl⟩) | ⟨hg, rfl⟩) | ⟨hg, rfl⟩, ht⟩
          · rw [noticeTier_mk] at ht; norm_num at ht
            exact Or.inl (Or.inl (Or.inl ⟨ht, rfl⟩))
          · rw [noticeTier_mk] at ht; norm_num at ht
            exact Or.inl (Or.inl (Or.inr ⟨ht, rfl⟩))
          · rw [noticeTier_mk] at ht; norm_num at ht
            exact Or.inl (Or.inr ⟨ht, rfl⟩)
          · rw [noticeTier_mk] at ht; norm_num at ht
            exact Or.inr ⟨ht, rfl⟩

/-! ## Claim theorems -/

/-- C1: for every run of `any3dModelToGlb` that passes argument validation,
the returned result has `didSucceed = true` exactly when no error-tier
(4xxxx) notice is in its notices sequence. -/
theorem c1_didSucceed_iff_no_error_notice (inputPath outputPath : JsVal) (options : JsOptions)
    (c : Collab) (outcome : RunOutcome)
    (h : any3dModelToGlb inputPath outputPath options c = Except.ok outcome) :
    outcome.result.didSucceed = true ↔ ∀ n ∈ outcome.result.notices, noticeTier n ≠ 4 := by
  obtain ⟨nl, ip, op, -, -, rfl⟩ := any3dModelToGlb_ok_elim _ _ _ _ _ h
  exact runPipeline_didSucceed_iff nl ip op c

theorem c1_witness :
    (runPipeline 3 "in.obj" "out.glb" readErrCollab).result.didSucceed = true ↔
      ∀ n ∈ (runPipeline 3 "in.obj" "out.glb" readErrCollab).result.notices, noticeTier n ≠ 4 :=
  c1_didSucceed_iff_no_error_notice (JsVal.str "in.obj") (JsVal.str "out.glb")
    (JsOptions.record []) readErrCollab (runPipeline 3 "in.obj" "out.glb" readErrCollab) rfl

/-- C2: when an injected stage collaborator throws, the pipeline body appends
exactly one error-tier notice for that stage (code 48172 / 49480 / 41510,
naming the stage and path) and skips all later stages; in particular a
`readFile` failure yields `didSucceed = false`, exactly the one reading
error notice among the error tier, and neither `convertModel` nor
`writeFile` is ever invoked. -/
theorem c2_stage_error_aborts (nl : Int) (ip op : String) (c : Collab) :
    (∀ msg, c.readFile ip = Except.error msg →
      (runPipeline nl ip op c).result.didSucceed = false ∧
      (∃ pre, (runPipeline nl ip op c).result.notices =
          pre ++ [⟨48172, s!"Error reading file at {ip}", some msg⟩] ∧
        ∀ n ∈ pre, noticeTier n ≠ 4) ∧
      (runPipeline nl ip op c).calls = [CallEvent.readCall ip]) ∧
    (∀ s msg, c.readFile ip = Except.ok s →
      c.convertModel (filenameFromPath ip) (bufferFrom s) = Except.error msg →
      (runPipeline nl ip op c).result.didSucceed = false ∧
      (∃ pre, (runPipeline nl ip op c).result.notices =
          pre ++ [⟨49480, s!"Error converting model {ip} to GLB format", some msg⟩] ∧
        ∀ n ∈ pre, noticeTier n ≠ 4) ∧
      (runPipeline nl ip op c).calls =
        [CallEvent.readCall ip, CallEvent.convertCall (filenameFromPath ip) (bufferFrom s)]) ∧
    (∀ s out msg k, c.readFile ip = Except.ok s →
      c.convertModel (filenameFromPath ip) (bufferFrom s) = Except.ok out →
      c.writeFile op out = Except.error msg → k = out.length →
      (runPipeline nl ip op c).result.didSucceed = false ∧
      (∃ pre, (runPipeline nl ip op c).result.notices =
          pre ++ [⟨41510, s!"Error writing {k} bytes to {op}", some msg⟩] ∧
        ∀ n ∈ pre, noticeTier n ≠ 4) ∧
      (runPipeline nl ip op c).calls =
        [CallEvent.readCall ip, CallEvent.convertCall (filenameFromPath ip) (bufferFrom s),
         CallEvent.writeCall op out]) := by
  refine ⟨?_, ?_, ?_⟩
  · intro msg hr
    have key : runPipeline nl ip op c =
        ⟨⟨false, (if nl ≤ 1 then [⟨14481, s!"Reading input file {ip}", none⟩] else []) ++
            [⟨48172, s!"Error reading file at {ip}", some msg⟩]⟩,
         [CallEvent.readCall ip]⟩ := by
      unfold runPipeline; simp only [hr]
    rw [key]
    refine ⟨rfl, ⟨_, rfl, ?_⟩, rfl⟩
    intro n hn
    rw [mem_gateList] at hn
    rw [hn.2, noticeTier_mk]
    norm_num
  · intro s msg hr hc
    obtain ⟨fn, hfn⟩ : ∃ x, x = filenameFromPath ip := ⟨_, rfl⟩
    have key : runPipeline nl ip op c =
        ⟨⟨false, ((if nl ≤ 1 then [⟨14481, s!"Reading input file {ip}", none⟩] else []) ++
            (if nl ≤ 1 then [⟨15118, s!"Converting {fn}", none⟩] else [])) ++
            [⟨49480, s!"Error converting model {ip} to GLB format", some msg⟩]⟩,
         [CallEvent.readCall ip, CallEvent.convertCall fn (bufferFrom s)]⟩ := by
      subst hfn; unfold runPipeline; simp only [hr, hc]
    rw [key]
    subst hfn
    refine ⟨rfl, ⟨_, rfl, ?_⟩, rfl⟩
    intro n hn
    rw [List.mem_append, mem_gateList, mem_gateList] at hn
    rcases hn with ⟨-, rfl⟩ | ⟨-, rfl⟩ <;> rw [noticeTier_mk] <;> norm_num
  · intro s out msg k hr hc hw hk
    obtain ⟨fn, hfn⟩ : ∃ x, x = filenameFromPath ip := ⟨_, rfl⟩
    have key : runPipeline nl ip op c =
        ⟨⟨false, (((if nl ≤ 1 then [⟨14481, s!"Reading input file {ip}", none⟩] else []) ++
            (if nl ≤ 1 then [⟨15118, s!"Converting {fn}", none⟩] else [])) ++
            (if nl ≤ 1 then [⟨19158, s!"Writing output file {op}", none⟩] else [])) ++
            [⟨41510, s!"Error writing {k} bytes to {op}", some msg⟩]⟩,
         [CallEvent.readCall ip, CallEvent.convertCall fn (bufferFrom s),
          CallEvent.writeCall op out]⟩ := by
      subst hfn; subst hk; unfold runPipeline; simp only [hr, hc, hw]
    rw [key]
    subst hfn
    refine ⟨rfl, ⟨_, rfl, ?_⟩, rfl⟩
    intro n hn
    rw [List.mem_append, List.mem_append, mem_gateList, mem_gateList, mem_gateList] at hn
    rcases hn with (⟨-, rfl⟩ | ⟨-, rfl⟩) | ⟨-, rfl⟩ <;> rw [noticeTier_mk] <;> norm_num

theorem c2_witness :
    (runPipeline 3 "in.obj" "out.glb" readErrCollab).result.didSucceed = false ∧
    (∃ pre, (runPipeline 3 "in.obj" "out.glb" readErrCollab).result.notices =
        pre ++ [⟨48172, s!"Error reading file at in.obj", some "ENOENT"⟩] ∧
      ∀ n ∈ pre, noticeTier n ≠ 4) ∧
    (runPipeline 3 "in.obj" "out.glb" readErrCollab).calls = [CallEvent.readCall "in.obj"] :=
  (c2_stage_error_aborts 3 "in.obj" "out.glb" readErrCollab).1 "ENOENT" rfl

/-- C8: whatever the write outcome, the data handed to `writeFile` on a run
whose read and conversion succeed is exactly the byte list returned by
`convertModel`, with nothing in between. -/
theorem c8_write_verbatim (nl : Int) (ip op : String) (c : Collab) (s : String) (out : List Nat)
    (hr : c.readFile ip = Except.ok s)
    (hc : c.convertModel (filenameFromPath ip) (bufferFrom s) = Except.ok out) :
    (runPipeline nl ip op c).calls =
      [CallEvent.readCall ip, CallEvent.convertCall (filenameFromPath ip) (bufferFrom s),
       CallEvent.writeCall op out] := by
  unfold runPipeline
  rcases hw : c.writeFile op out with msg | u <;> simp [hr, hc, hw]

theorem c8_witness :
    (runPipeline 3 "cube.obj" "output.glb" okCollab).calls =
      [CallEvent.readCall "cube.obj",
       CallEvent.convertCall (filenameFromPath "cube.obj") (bufferFrom "data"),
       CallEvent.writeCall "output.glb" [1, 2, 3]] :=
  c8_write_verbatim 3 "cube.obj" "output.glb" okCollab "data" [1, 2, 3] rfl rfl

/-- C6: for a fixed run, the notices recorded at a higher (less verbose)
`noticeLevel` are a subset of those recorded at any lower level, and a notice
is recorded at level `nl` exactly when its severity tier meets or exceeds
`nl` (and the fully verbose level 1 records it). -/
theorem c6_verbosity_monotonic (ip op : String) (c : Collab) (nl nlB : Int)
    (h1 : 1 ≤ nl) (hle : nl ≤ nlB) (h4 : nlB ≤ 4) :
    (∀ n ∈ (runPipeline nlB ip op c).result.notices,
        n ∈ (runPipeline nl ip op c).result.notices) ∧
    (∀ n, n ∈ (runPipeline nl ip op c).result.notices ↔
        (n ∈ (runPipeline 1 ip op c).result.notices ∧ nl ≤ (noticeTier n : Int))) := by
  constructor
  · intro n hn
    rcases (runPipeline_mem_iff nlB ip op c h4 n).mp hn with ⟨hmem, ht⟩
    exact (runPipeline_mem_iff nl ip op c (le_trans hle h4) n).mpr ⟨hmem, le_trans hle ht⟩
  · intro n
    exact runPipeline_mem_iff nl ip op c (le_trans hle h4) n

theorem c6_witness :
    (∀ n ∈ (runPipeline 3 "cube.obj" "out.glb" okCollab).result.notices,
        n ∈ (runPipeline 2 "cube.obj" "out.glb" okCollab).result.notices) ∧
    (∀ n, n ∈ (runPipeline 2 "cube.obj" "out.glb" okCollab).result.notices ↔
        (n ∈ (runPipeline 1 "cube.obj" "out.glb" okCollab).result.notices ∧
          (2 : Int) ≤ (noticeTier n : Int))) :=
  c6_verbosity_monotonic "cube.obj" "out.glb" okCollab 2 3 (by norm_num) (by norm_num)
    (by norm_num)

/-- A run whose three validations pass is the pipeline body at the resolved
notice level. -/
theorem any3dModelToGlb_eq_run (ip op : String) (options : JsOptions) (c : Collab)
    (d : List (String × OptVal))
    (hvi : validatePath "any3dModelToGlb" "inputPath" (JsVal.str ip) = Except.ok ())
    (hvo : validatePath "any3dModelToGlb" "outputPath" (JsVal.str op) = Except.ok ())
    (hres : resolveOptions "any3dModelToGlb" options = Except.ok d) :
    any3dModelToGlb (JsVal.str ip) (JsVal.str op) options c =
      Except.ok (runPipeline (resolvedNoticeLevel d) ip op c) := by
  simp [any3dModelToGlb, hvi, hvo, hres]

/-- C4 counterexample: a fully successful conversion with default options (no
`noticeLevel` supplied) returns `didSucceed = true` with an EMPTY notices
list — the default level 3 suppresses the tier-2 terminal notice, so no final
notice reporting the byte count exists. -/
theorem c4_counterexample :
    any3dModelToGlb (JsVal.str "cube.obj") (JsVal.str "output.glb") (JsOptions.record [])
        okCollab =
      Except.ok ⟨⟨true, []⟩,
        [CallEvent.readCall "cube.obj", CallEvent.convertCall "cube.obj" (bufferFrom "data"),
         CallEvent.writeCall "output.glb" [1, 2, 3]]⟩ := rfl

/-- C4 (amended): a fully successful conversion with default options returns
`didSucceed = true` and an empty notices list (default `noticeLevel` 3
suppresses the informational terminal notice); when `noticeLevel: 2` is
requested, the run succeeds and its only (hence final) notice is the
terminal notice recording the output byte length. -/
theorem c4_amended_terminal_notice (ip op : String) (c : Collab) (s : String)
    (out : List Nat) (k : Nat)
    (hvi : validatePath "any3dModelToGlb" "inputPath" (JsVal.str ip) = Except.ok ())
    (hvo : validatePath "any3dModelToGlb" "outputPath" (JsVal.str op) = Except.ok ())
    (hr : c.readFile ip = Except.ok s)
    (hc : c.convertModel (filenameFromPath ip) (bufferFrom s) = Except.ok out)
    (hw : c.writeFile op out = Except.ok ())
    (hk : k = out.length) :
    any3dModelToGlb (JsVal.str ip) (JsVal.str op) (JsOptions.record []) c =
      Except.ok ⟨⟨true, []⟩,
        [CallEvent.readCall ip, CallEvent.convertCall (filenameFromPath ip) (bufferFrom s),
         CallEvent.writeCall op out]⟩ ∧
    any3dModelToGlb (JsVal.str ip) (JsVal.str op)
        (JsOptions.record [("noticeLevel", OptVal.num 2)]) c =
      Except.ok ⟨⟨true, [⟨26152, s!"Wrote {k} bytes", none⟩]⟩,
        [CallEvent.readCall ip, CallEvent.convertCall (filenameFromPath ip) (bufferFrom s),
         CallEvent.writeCall op out]⟩ := by
  subst hk
  constructor
  · rw [any3dModelToGlb_eq_run ip op (JsOptions.record []) c [("noticeLevel", OptVal.num 3)]
      hvi hvo rfl]
    have hrun : runPipeline (resolvedNoticeLevel [("noticeLevel", OptVal.num 3)]) ip op c =
        ⟨⟨true, []⟩,
         [CallEvent.readCall ip, CallEvent.convertCall (filenameFromPath ip) (bufferFrom s),
          CallEvent.writeCall op out]⟩ := by
      unfold runPipeline resolvedNoticeLevel
      simp [hr, hc, hw, lookupField]
    rw [hrun]
  · rw [any3dModelToGlb_eq_run ip op (JsOptions.record [("noticeLevel", OptVal.num 2)]) c
      [("noticeLevel", OptVal.num 2)] hvi hvo rfl]
    have hrun : runPipeline (resolvedNoticeLevel [("noticeLevel", OptVal.num 2)]) ip op c =
        ⟨⟨true, [⟨26152, s!"Wrote {(out.length : Nat)} bytes", none⟩]⟩,
         [CallEvent.readCall ip, CallEvent.convertCall (filenameFromPath ip) (bufferFrom s),
          CallEvent.writeCall op out]⟩ := by
      unfold runPipeline resolvedNoticeLevel
      simp [hr, hc, hw, lookupField]
    rw [hrun]

theorem c4_witness :
    any3dModelToGlb (JsVal.str "cube.obj") (JsVal.str "output.glb") (JsOptions.record [])
        okCollab =
      Except.ok ⟨⟨true, []⟩,
        [CallEvent.readCall "cube.obj",
         CallEvent.convertCall (filenameFromPath "cube.obj") (bufferFrom "data"),
         CallEvent.writeCall "output.glb" [1, 2, 3]]⟩ ∧
    any3dModelToGlb (JsVal.str "cube.obj") (JsVal.str "output.glb")
        (JsOptions.record [("noticeLevel", OptVal.num 2)]) okCollab =
      Except.ok ⟨⟨true, [⟨26152, s!"Wrote 3 bytes", none⟩]⟩,
        [CallEvent.readCall "cube.obj",
         CallEvent.convertCall (filenameFromPath "cube.obj") (bufferFrom "data"),
         CallEvent.writeCall "output.glb" [1, 2, 3]]⟩ := by
  have h := c4_amended_terminal_notice "cube.obj" "output.glb" okCollab "data" [1, 2, 3] 3
    rfl rfl rfl rfl rfl rfl
  exact h

/-- C10: an options record explicitly carrying `noticeLevel: undefined` is
rejected (the spread lets the explicit `undefined` override the default, and
property validation throws for type `undefined`), while omitting the key
resolves to the default `noticeLevel` 3 — so explicit-undefined and absent
differ at the public interface. -/
theorem c10_explicit_undefined_vs_absent :
    resolveOptions "any3dModelToGlb" (JsOptions.record [("noticeLevel", OptVal.undef)]) =
      Except.error
        "any3dModelToGlb(): Invalid options.noticeLevel type \x27undefined\x27, should be \x27number\x27" ∧
    resolveOptions "any3dModelToGlb" (JsOptions.record []) =
      Except.ok [("noticeLevel", OptVal.num 3)] ∧
    any3dModelToGlb (JsVal.str "cube.obj") (JsVal.str "output.glb")
        (JsOptions.record [("noticeLevel", OptVal.undef)]) okCollab =
      Except.error
        "any3dModelToGlb(): Invalid options.noticeLevel type \x27undefined\x27, should be \x27number\x27" :=
  ⟨rfl, rfl, rfl⟩

/-- C7: when any of the three argument validations fails, `any3dModelToGlb`
fails synchronously with the thrown validation error: the result is an
exception (no result record, hence no run notice), it does not depend on the
injected collaborators (no I/O is performed), and an `inputPath` validation
error propagates verbatim. -/
theorem c7_arg_error_fail_fast (ip op : JsVal) (options : JsOptions) (c cB : Collab)
    (h : (exceptIsOk (validatePath "any3dModelToGlb" "inputPath" ip) &&
          exceptIsOk (validatePath "any3dModelToGlb" "outputPath" op) &&
          exceptIsOk (resolveOptions "any3dModelToGlb" options)) = false) :
    (∃ e, any3dModelToGlb ip op options c = Except.error e) ∧
    any3dModelToGlb ip op options c = any3dModelToGlb ip op options cB ∧
    (∀ e, validatePath "any3dModelToGlb" "inputPath" ip = Except.error e →
      any3dModelToGlb ip op options c = Except.error e) := by
  rcases hv1 : validatePath "any3dModelToGlb" "inputPath" ip with e1 | u1
  · have hrun : ∀ cc : Collab, any3dModelToGlb ip op options cc = Except.error e1 := by
      intro cc; simp [any3dModelToGlb, hv1]
    refine ⟨⟨e1, hrun c⟩, (hrun c).trans (hrun cB).symm, ?_⟩
    intro e he
    injection he with he2
    rw [he2] at hrun
    exact hrun c
  · cases u1
    rcases hv2 : validatePath "any3dModelToGlb" "outputPath" op with e2 | u2
    · have hrun : ∀ cc : Collab, any3dModelToGlb ip op options cc = Except.error e2 := by
        intro cc; simp [any3dModelToGlb, hv1, hv2]
      refine ⟨⟨e2, hrun c⟩, (hrun c).trans (hrun cB).symm, ?_⟩
      intro e he
      exact Except.noConfusion he
    · cases u2
      rcases hv3 : resolveOptions "any3dModelToGlb" options with e3 | d
      · have hrun : ∀ cc : Collab, any3dModelToGlb ip op options cc = Except.error e3 := by
          intro cc; simp [any3dModelToGlb, hv1, hv2, hv3]
        refine ⟨⟨e3, hrun c⟩, (hrun c).trans (hrun cB).symm, ?_⟩
        intro e he
        exact Except.noConfusion he
      · rw [hv1, hv2, hv3] at h
        simp [exceptIsOk] at h

theorem c7_witness :
    (∃ e, any3dModelToGlb (JsVal.num 123) (JsVal.str "output.glb") (JsOptions.record [])
        okCollab = Except.error e) ∧
    any3dModelToGlb (JsVal.num 123) (JsVal.str "output.glb") (JsOptions.record []) okCollab =
      any3dModelToGlb (JsVal.num 123) (JsVal.str "output.glb") (JsOptions.record [])
        readErrCollab ∧
    any3dModelToGlb (JsVal.num 123) (JsVal.str "output.glb") (JsOptions.record []) okCollab =
      Except.error
        "any3dModelToGlb(): Invalid inputPath argument type \x27number\x27, should be \x27string\x27" := by
  have h := c7_arg_error_fail_fast (JsVal.num 123) (JsVal.str "output.glb")
    (JsOptions.record []) okCollab readErrCollab rfl
  exact ⟨h.1, h.2.1, h.2.2 _ rfl⟩

/-- C3: every string path violating a path rule is rejected by `validatePath`
with the message of the specific violated rule: emptiness, length over 1000,
forbidden characters, missing extension, a non-`glb` extension for role
`outputPath`, and an unsupported extension for role `inputPath`. -/
theorem c3_validatePath_rules (argName s ext : String) (m : Nat) :
    (s.length = 0 → validatePath "any3dModelToGlb" argName (JsVal.str s) =
      Except.error
        s!"any3dModelToGlb(): Invalid {argName} argument is an empty string, should be a valid file path") ∧
    (m = s.length → m > 1000 → validatePath "any3dModelToGlb" argName (JsVal.str s) =
      Except.error
        s!"any3dModelToGlb(): Invalid {argName} argument length {m} exceeds maximum of 1000 characters") ∧
    (s.length ≠ 0 → s.length ≤ 1000 → s.data.any isInvalidPathChar = true →
      validatePath "any3dModelToGlb" argName (JsVal.str s) =
      Except.error
        s!"any3dModelToGlb(): Invalid {argName} argument \x27{s}\x27 contains invalid characters for file paths") ∧
    (s.length ≠ 0 → s.length ≤ 1000 → s.data.any isInvalidPathChar = false →
      extMatch s = none →
      validatePath "any3dModelToGlb" argName (JsVal.str s) =
      Except.error s!"any3dModelToGlb(): Invalid {argName} argument has no valid file extension") ∧
    (s.length ≠ 0 → s.length ≤ 1000 → s.data.any isInvalidPathChar = false →
      extMatch s = some ext → ext ≠ "glb" →
      validatePath "any3dModelToGlb" "outputPath" (JsVal.str s) =
      Except.error
        s!"any3dModelToGlb(): Invalid outputPath argument extension \x27.{ext}\x27 is not supported, should be \x27.glb\x27") ∧
    (s.length ≠ 0 → s.length ≤ 1000 → s.data.any isInvalidPathChar = false →
      extMatch s = some ext → VALID_INPUT_EXTENSIONS.contains ext = false →
      validatePath "any3dModelToGlb" "inputPath" (JsVal.str s) =
      Except.error
        s!"any3dModelToGlb(): Invalid inputPath argument extension \x27.{ext}\x27 is not a supported 3D model format") := by
  refine ⟨?_, ?_, ?_, ?_, ?_, ?_⟩
  · intro h0
    simp [validatePath, h0] <;> rfl
  · intro hm hgt
    subst hm
    have h0 : ¬ (s.length = 0) := by omega
    simp [validatePath, h0, hgt] <;> rfl
  · intro h0 hle hinv
    have hgt : ¬ (s.length > 1000) := by omega
    simp [validatePath, h0, hgt, hinv] <;> rfl
  · intro h0 hle hinv hext
    have hgt : ¬ (s.length > 1000) := by omega
    simp [validatePath, h0, hgt, hinv, hext] <;> rfl
  · intro h0 hle hinv hext hglb
    have hgt : ¬ (s.length > 1000) := by omega
    simp [validatePath, h0, hgt, hinv, hext, hglb] <;> rfl
  · intro h0 hle hinv hext hcont
    have hgt : ¬ (s.length > 1000) := by omega
    have hmem : ext ∉ VALID_INPUT_EXTENSIONS := by simpa using hcont
    simp [validatePath, h0, hgt, hinv, hext, hmem] <;> rfl

theorem c3_witness :
    validatePath "any3dModelToGlb" "outputPath" (JsVal.str "model.stl") =
      Except.error
        "any3dModelToGlb(): Invalid outputPath argument extension \x27.stl\x27 is not supported, should be \x27.glb\x27" := by
  have h := (c3_validatePath_rules "outputPath" "model.stl" "stl" 0).2.2.2.2.1
    (by decide) (by decide) (by decide) (by decide) (by decide)
  exact h

/-- `resolveOptions` on a record reduces to validating the merged record. -/
theorem resolveOptions_record_eq (fnName : String) (fields : List (String × OptVal)) :
    resolveOptions fnName (JsOptions.record fields) =
      match validateOptionsProps fnName (mergeDefaults fields) with
      | Except.error e => Except.error e
      | Except.ok _ => Except.ok (mergeDefaults fields) := rfl

/-- When property validation succeeds, every key of the record is
recognised. -/
theorem validateOptionsProps_ok_keys (fnName : String) (l : List (String × OptVal)) (u : Unit)
    (h : validateOptionsProps fnName l = Except.ok u) :
    ∀ p ∈ l, p.1 ∈ validOptionNames := by
  rcases hck : checkOptionKeys s!"{fnName}():" l with e | u2
  · simp [validateOptionsProps, hck] at h
  · exact (checkOptionKeys_ok_iff s!"{fnName}():" l).mp (by rw [hck]; rfl)

/-- When property validation succeeds, the destructured `noticeLevel` is a
number in `{1, 2, 3, 4}`. -/
theorem validateOptionsProps_ok_num (fnName : String) (l : List (String × OptVal)) (u : Unit)
    (h : validateOptionsProps fnName l = Except.ok u) :
    ∃ i : Int, (lookupField "noticeLevel" l).getD OptVal.undef = OptVal.num i ∧
      (i = 1 ∨ i = 2 ∨ i = 3 ∨ i = 4) := by
  rcases hck : checkOptionKeys s!"{fnName}():" l with e | u2
  · simp [validateOptionsProps, hck] at h
  · rcases hv : (lookupField "noticeLevel" l).getD OptVal.undef with i | sv | bv | _
    case num =>
      refine ⟨i, rfl, ?_⟩
      by_contra hni
      simp [validateOptionsProps, hck, hv, hni] at h
    all_goals simp [validateOptionsProps, hck, hv] at h

/-- C5: options resolution throws for `null`, arrays, and primitive options
arguments, for any record holding an unrecognised key, and for any
`noticeLevel` value that is not one of the numbers 1, 2, 3, 4; fields absent
from the caller record are filled from the default before validation, so the
empty record resolves to the defaulted record. -/
theorem c5_resolveOptions_contract (t k : String) (v : OptVal)
    (fields : List (String × OptVal)) :
    (resolveOptions "any3dModelToGlb" JsOptions.nullOpt =
      Except.error "any3dModelToGlb(): Invalid options argument is null, should be a plain object") ∧
    (resolveOptions "any3dModelToGlb" JsOptions.arrOpt =
      Except.error "any3dModelToGlb(): Invalid options argument is an array, should be a plain object") ∧
    (resolveOptions "any3dModelToGlb" (JsOptions.primOpt t) =
      Except.error s!"any3dModelToGlb(): Invalid options argument type \x27{t}\x27, should be \x27object\x27") ∧
    (k ∈ fields.map Prod.fst → k ∉ validOptionNames →
      exceptIsOk (resolveOptions "any3dModelToGlb" (JsOptions.record fields)) = false) ∧
    (lookupField "noticeLevel" fields = some v →
      (∀ i : Int, v = OptVal.num i → ¬(i = 1 ∨ i = 2 ∨ i = 3 ∨ i = 4)) →
      exceptIsOk (resolveOptions "any3dModelToGlb" (JsOptions.record fields)) = false) ∧
    (resolveOptions "any3dModelToGlb" (JsOptions.record []) =
      Except.ok [("noticeLevel", OptVal.num 3)]) := by
  refine ⟨rfl, rfl, rfl, ?_, ?_, rfl⟩
  · intro hk hnk
    rw [resolveOptions_record_eq]
    rcases hp : validateOptionsProps "any3dModelToGlb" (mergeDefaults fields) with e | u
    · simp [exceptIsOk]
    · exfalso
      have hkeys := validateOptionsProps_ok_keys _ _ u hp
      simp only [List.mem_map] at hk
      obtain ⟨p, hp2, hpk⟩ := hk
      have hkn : k ≠ "noticeLevel" := by
        intro hkeq
        exact hnk (by simp [hkeq, validOptionNames])
      have hmem : p ∈ mergeDefaults fields := by
        unfold mergeDefaults
        exact List.mem_cons_of_mem _ (List.mem_filter.mpr ⟨hp2, by simp [hpk, hkn]⟩)
      have hval := hkeys p hmem
      rw [hpk] at hval
      exact hnk hval
  · intro hv hni
    rw [resolveOptions_record_eq]
    rcases hp : validateOptionsProps "any3dModelToGlb" (mergeDefaults fields) with e | u
    · simp [exceptIsOk]
    · exfalso
      obtain ⟨i, hgd, hi⟩ := validateOptionsProps_ok_num _ _ u hp
      have hml : (lookupField "noticeLevel" (mergeDefaults fields)).getD OptVal.undef =
          (lookupField "noticeLevel" fields).getD (OptVal.num 3) := rfl
      rw [hml, hv] at hgd
      simp at hgd
      exact hni i hgd hi

theorem c5_witness :
    exceptIsOk (resolveOptions "any3dModelToGlb"
        (JsOptions.record [("invalidProp", OptVal.num 123)])) = false ∧
    exceptIsOk (resolveOptions "any3dModelToGlb"
        (JsOptions.record [("noticeLevel", OptVal.num 5)])) = false ∧
    resolveOptions "any3dModelToGlb" (JsOptions.record []) =
      Except.ok [("noticeLevel", OptVal.num 3)] := by
  have h1 := c5_resolveOptions_contract "string" "invalidProp" (OptVal.num 123)
    [("invalidProp", OptVal.num 123)]
  have h2 := c5_resolveOptions_contract "string" "noticeLevel" (OptVal.num 5)
    [("noticeLevel", OptVal.num 5)]
  refine ⟨h1.2.2.2.1 (by simp) (by simp [validOptionNames]), ?_, h1.2.2.2.2.2⟩
  refine h2.2.2.2.2.1 rfl ?_
  intro i hi
  injection hi with hi2
  subst hi2
  decide

/-- `splitChars` never produces the empty list of pieces. -/
theorem splitChars_ne_nil (p : Char → Bool) (l : List Char) : splitChars p l ≠ [] := by
  induction l with
  | nil => simp [splitChars]
  | cons c cs ih =>
      unfold splitChars
      rcases hs : splitChars p cs with _ | ⟨r, rs⟩
      · simp
      · split_ifs <;> simp

/-- A `takeWhile` that keeps as many elements as the list has keeps the whole
list. -/
theorem takeWhile_eq_self_of_length (q : Char → Bool) (l : List Char)
    (h : (l.takeWhile q).length = l.length) : l.takeWhile q = l := by
  induction l with
  | nil => rfl
  | cons a l ih =>
      rw [List.takeWhile_cons] at h ⊢
      by_cases ha : q a
      · simp only [ha, if_true, List.length_cons, Nat.add_right_cancel_iff] at h
        simp [ha, ih h]
      · simp [ha] at h

/-- `takeWhile` keeps the whole list exactly when every element satisfies the
predicate. -/
theorem takeWhile_full_iff_all (q : Char → Bool) (l : List Char) :
    ((l.takeWhile q).length = l.length) ↔ l.all q = true := by
  induction l with
  | nil => simp
  | cons a l ih =>
      rw [List.takeWhile_cons]
      by_cases ha : q a
      · simp [ha, ih]
      · simp [ha]

/-- The default of `getLastD` is irrelevant on a non-empty list. -/
theorem getLastD_ne_nil {α : Type} (l : List α) (d1 d2 : α) (h : l ≠ []) :
    l.getLastD d1 = l.getLastD d2 := by
  cases l with
  | nil => exact absurd rfl h
  | cons a l => rw [List.getLastD_cons, List.getLastD_cons]

/-- The last piece of `splitChars p l` is the reversed longest suffix of `l`
free of separators, and the split is a single piece exactly when `l` holds no
separator. -/
theorem splitChars_spec (p : Char → Bool) (l : List Char) :
    (splitChars p l).getLastD [] = (l.reverse.takeWhile (fun c => !(p c))).reverse ∧
    ((splitChars p l).length = 1 ↔ l.all (fun c => !(p c)) = true) := by
  induction l with
  | nil => exact ⟨rfl, by simp [splitChars]⟩
  | cons c cs ih =>
      obtain ⟨ih1, ih2⟩ := ih
      rcases hs : splitChars p cs with _ | ⟨r, rs⟩
      · exact absurd hs (splitChars_ne_nil p cs)
      rw [hs] at ih1 ih2
      by_cases hc : p c
      · have hqc : (fun x => !(p x)) c = false := by simp [hc]
        have hsplit : splitChars p (c :: cs) = [] :: r :: rs := by
          unfold splitChars
          simp [hs, hc]
        constructor
        · rw [hsplit, List.getLastD_cons, ih1, List.reverse_cons, List.takeWhile_append]
          by_cases hfull : (List.takeWhile (fun x => !(p x)) cs.reverse).length = cs.reverse.length
          · rw [if_pos hfull]
            have hone : List.takeWhile (fun x => !(p x)) [c] = [] := by
              simp [List.takeWhile_cons, hqc]
            rw [hone, List.append_nil, takeWhile_eq_self_of_length _ _ hfull]
          · rw [if_neg hfull]
        · rw [hsplit]
          simp [List.all_cons, hc]
      · have hqc : (fun x => !(p x)) c = true := by simp [hc]
        have hsplit : splitChars p (c :: cs) = (c :: r) :: rs := by
          unfold splitChars
          simp [hs, hc]
        constructor
        · rw [hsplit, List.getLastD_cons, List.reverse_cons, List.takeWhile_append]
          cases rs with
          | nil =>
              have hall : cs.all (fun x => !(p x)) = true := ih2.mp rfl
              have hfull : (List.takeWhile (fun x => !(p x)) cs.reverse).length =
                  cs.reverse.length := by
                rw [takeWhile_full_iff_all, List.all_reverse]
                exact hall
              rw [if_pos hfull]
              have hone : List.takeWhile (fun x => !(p x)) [c] = [c] := by
                simp [List.takeWhile_cons, hqc]
              rw [hone]
              have hr : r = cs := by
                have := ih1
                rw [List.getLastD_cons] at this
                simp only [List.getLastD] at this
                rw [this, takeWhile_eq_self_of_length _ _ hfull, List.reverse_reverse]
              rw [hr]
              simp
          | cons r2 rs2 =>
              have hnall : cs.all (fun x => !(p x)) = false := by
                cases hb : cs.all (fun x => !(p x))
                · rfl
                · have := ih2.mpr hb
                  simp at this
              have hfull : ¬ ((List.takeWhile (fun x => !(p x)) cs.reverse).length =
                  cs.reverse.length) := by
                rw [takeWhile_full_iff_all, List.all_reverse, hnall]
                simp
              rw [if_neg hfull]
              rw [List.getLastD_cons] at ih1
              rw [getLastD_ne_nil (r2 :: rs2) (c :: r) r (by simp), ih1]
        · rw [hsplit]
          simp only [List.length_cons, List.all_cons, hqc, Bool.true_and]
          simp only [List.length_cons] at ih2
          exact ih2

/-- `filenameFromPath` computes the suffix of the path after its last
separator, falling back to the whole path when that suffix is empty. -/
theorem filenameFromPath_eq_spec (p : String) :
    filenameFromPath p = (if suffixAfterLastSep p = "" then p else suffixAfterLastSep p) := by
  simp only [filenameFromPath, suffixAfterLastSep]
  rw [(splitChars_spec isSep p.data).1]
  by_cases hL : (p.data.reverse.takeWhile (fun c => !(isSep c))).reverse = []
  · rw [hL]
    simp
  · have h1 : (p.data.reverse.takeWhile (fun c => !(isSep c))).reverse.isEmpty = false := by
      simp [List.isEmpty_iff, hL]
    have h2 : ¬ (String.mk ((p.data.reverse.takeWhile (fun c => !(isSep c))).reverse) = "") := by
      intro h
      apply hL
      have hd := congrArg String.data h
      simpa using hd
    simp [h1, h2]

/-- C9: the filename handed to the conversion gateway is the substring of
`inputPath` after its last `/` or `\` separator, or the whole `inputPath`
when that substring is empty; and on every run whose read succeeds, the
convert call receives exactly that filename. -/
theorem c9_filename_from_path :
    (∀ p : String, filenameFromPath p =
      (if suffixAfterLastSep p = "" then p else suffixAfterLastSep p)) ∧
    (∀ (nl : Int) (ip op : String) (c : Collab) (s : String),
      c.readFile ip = Except.ok s →
      CallEvent.convertCall (filenameFromPath ip) (bufferFrom s) ∈
        (runPipeline nl ip op c).calls) := by
  constructor
  · exact filenameFromPath_eq_spec
  · intro nl ip op c s hr
    unfold runPipeline
    rcases hc : c.convertModel (filenameFromPath ip) (bufferFrom s) with msg | out
    · simp [hr, hc]
    · rcases hw : c.writeFile op out with m2 | u <;> simp [hr, hc, hw]

theorem c9_witness :
    filenameFromPath "models/cube.obj" =
      (if suffixAfterLastSep "models/cube.obj" = "" then "models/cube.obj"
       else suffixAfterLastSep "models/cube.obj") ∧
    suffixAfterLastSep "models/cube.obj" = "cube.obj" ∧
    CallEvent.convertCall (filenameFromPath "models/cube.obj") (bufferFrom "data") ∈
      (runPipeline 3 "models/cube.obj" "out.glb" okCollab).calls :=
  ⟨c9_filename_from_path.1 "models/cube.obj", by decide,
   c9_filename_from_path.2 3 "models/cube.obj" "out.glb" okCollab "data" rfl⟩

end AnyToGlb
